/-
Verification of the restaurant-location scoring pipeline
(`restaurant_ml_system.py`, class `RestaurantLocationML`).

Shallow embedding conventions:
* Python floats are modelled as rationals (ℚ); `round(x, 3)` is modelled by
  `roundTo 3` (rounding of `x * 1000` to the nearest integer).
* The externally loaded artifacts (the geodesic distance routine from geopy,
  the pickled regressors, scalers, the ordered feature-name list, the landmark
  table and the reference-branch CSV) are fields of the `MLSystem` structure:
  they are read-only inputs of the code under verification.
* A Python dict used as a feature map is modelled as an association list in
  most-recent-write-first order, so that `List.lookup` returns exactly what
  the dict lookup returns (the latest write to a key wins).
* `list.sort(key=..., reverse=True)` is Python's stable sort in descending
  key order; it is modelled by the stable insertion sort `sortDesc`.
-/
import Mathlib

namespace RestaurantML

/-- One row of `final_model_updated/data/reference_branches.csv`
(`self.reference_data`): branch id, name, district, category, coordinates,
2024 gross transaction value and observed performance score. -/
structure Branch where
  branch_id : Nat
  branchName : String
  districtName : String
  Category : String
  latitude : ℚ
  longitude : ℚ
  GTV2024 : ℚ
  performance_score : ℚ
deriving Repr, DecidableEq

/-- The loaded model components (`_load_components`).  The serialized
regressors/scalers and the geopy geodesic routine are opaque external
artifacts, so they appear as function-valued fields; everything downstream of
them is translated from the source. -/
structure MLSystem where
  /-- Model of `geodesic(p, q).kilometers` from geopy: distance between two
  (lat, lng) pairs. -/
  geodesicKm : ℚ × ℚ → ℚ × ℚ → ℚ
  /-- Field `self.landmarks = self.metadata['landmarks']`, an ordered mapping
  name ↦ (lat, lng). -/
  landmarks : List (String × (ℚ × ℚ))
  /-- Field `self.reference_data`, the reference-branch table. -/
  reference_data : List Branch
  /-- Field `self.spatial_features`, the ordered feature-name list the spatial
  model was trained with. -/
  spatial_features : List String
  /-- Effect of `self.spatial_scaler.transform` on a single row. -/
  spatialScale : List ℚ → List ℚ
  /-- Effect of `self.spatial_model.predict` on a single (scaled) row. -/
  spatialPredict : List ℚ → ℚ
  /-- Row-wise effect of encoding `self.existing_features`, applying
  `self.existing_scaler.transform` and `self.existing_model.predict`
  (`analyze_portfolio` lines 103-110); sklearn transform/predict act
  independently on each row of the matrix. -/
  existingPredict : Branch → ℚ

/-- Python `round(x, n)` on a rational: round `x * 10^n` to the nearest integer.
(The claims never depend on the behaviour at exact decimal midpoints, where
Python's float rounding is round-half-to-even.) -/
def roundTo (n : Nat) (x : ℚ) : ℚ :=
  ((round (x * 10 ^ n) : ℤ) : ℚ) / 10 ^ n

/-! ### Stable descending sort

`results.sort(key=..., reverse=True)` (line 162) and pandas
`nlargest`/`nsmallest` with the default `keep='first'` are stable sorts.
`sortDesc key` sorts in weakly descending key order and keeps the original
relative order of elements with equal keys. -/

/-- Insert `a` into a weakly descending list, after every element whose key
is strictly larger and before the rest, so that elements with a key equal to
`key a` that were inserted earlier stay in front. -/
def insertDesc {α β : Type} [LinearOrder β] (key : α → β) (a : α) : List α → List α
  | [] => [a]
  | b :: l => if key a < key b then b :: insertDesc key a l else a :: b :: l

/-- Stable sort in weakly descending key order (model of Python's stable
`sort(key=..., reverse=True)`). -/
def sortDesc {α β : Type} [LinearOrder β] (key : α → β) : List α → List α
  | [] => []
  | a :: l => insertDesc key a (sortDesc key l)

/-- pandas `nlargest(n, col)` with `keep='first'`: stable descending sort,
then take the first `n`. -/
def nlargest {α β : Type} [LinearOrder β] (n : Nat) (key : α → β) (l : List α) : List α :=
  (sortDesc key l).take n

/-- pandas `nsmallest(n, col)` with `keep='first'`: stable ascending sort,
then take the first `n`. -/
def nsmallest {α : Type} (n : Nat) (key : α → ℚ) (l : List α) : List α :=
  (sortDesc (fun a => -key a) l).take n

theorem insertDesc_perm {α β : Type} [LinearOrder β] (key : α → β) (a : α) (l : List α) :
    (insertDesc key a l).Perm (a :: l) := by
  induction l with
  | nil => simp [insertDesc]
  | cons b l ih =>
    by_cases h : key a < key b
    · simpa [insertDesc, h] using ((ih.cons b).trans (List.Perm.swap a b l))
    · simp [insertDesc, h]

theorem sortDesc_perm {α β : Type} [LinearOrder β] (key : α → β) (l : List α) :
    (sortDesc key l).Perm l := by
  induction l with
  | nil => simp [sortDesc]
  | cons a l ih =>
    exact (insertDesc_perm key a (sortDesc key l)).trans (ih.cons a)

theorem insertDesc_pairwise {α β : Type} [LinearOrder β] (key : α → β) (a : α) (l : List α)
    (hl : l.Pairwise (fun x y => key y ≤ key x)) :
    (insertDesc key a l).Pairwise (fun x y => key y ≤ key x) := by
  induction l with
  | nil => simp [insertDesc]
  | cons b l ih =>
    rcases List.pairwise_cons.mp hl with ⟨hb, hl'⟩
    by_cases h : key a < key b
    · rw [insertDesc, if_pos h]
      refine List.pairwise_cons.mpr ⟨?_, ih hl'⟩
      intro x hx
      rcases List.mem_cons.mp ((insertDesc_perm key a l).mem_iff.mp hx) with hx' | hx'
      · exact hx' ▸ le_of_lt h
      · exact hb x hx'
    · rw [insertDesc, if_neg h]
      refine List.pairwise_cons.mpr ⟨?_, hl⟩
      intro x hx
      rcases List.mem_cons.mp hx with hx' | hx'
      · exact hx' ▸ le_of_not_lt h
      · exact le_trans (hb x hx') (le_of_not_lt h)

theorem sortDesc_pairwise {α β : Type} [LinearOrder β] (key : α → β) (l : List α) :
    (sortDesc key l).Pairwise (fun x y => key y ≤ key x) := by
  induction l with
  | nil => simp [sortDesc]
  | cons a l ih => exact insertDesc_pairwise key a (sortDesc key l) ih

/-- Inserting an element of a different key class does not disturb the
subsequence of any fixed key class. -/
theorem insertDesc_filter_ne {α β : Type} [LinearOrder β] [DecidableEq β]
    (key : α → β) (a : α) (l : List α) (c : β) (ha : key a ≠ c) :
    (insertDesc key a l).filter (fun x => key x = c)
      = l.filter (fun x => key x = c) := by
  induction l with
  | nil => simp [insertDesc, ha]
  | cons b l ih =>
    by_cases h : key a < key b
    · rw [insertDesc, if_pos h]
      by_cases hb : key b = c
      · rw [List.filter_cons_of_pos (by simpa using hb),
          List.filter_cons_of_pos (by simpa using hb), ih]
      · rw [List.filter_cons_of_neg (by simpa using hb),
          List.filter_cons_of_neg (by simpa using hb), ih]
    · rw [insertDesc, if_neg h, List.filter_cons_of_neg (by simpa using ha)]

/-- Inserting an element into a weakly descending list places it in front of
every element of its own key class. -/
theorem insertDesc_filter_eq {α β : Type} [LinearOrder β] [DecidableEq β]
    (key : α → β) (a : α) (l : List α)
    (hl : l.Pairwise (fun x y => key y ≤ key x)) :
    (insertDesc key a l).filter (fun x => key x = key a)
      = a :: l.filter (fun x => key x = key a) := by
  induction l with
  | nil => simp [insertDesc]
  | cons b l ih =>
    rcases List.pairwise_cons.mp hl with ⟨hb, hl'⟩
    by_cases h : key a < key b
    · have hbne : ¬ (key b = key a) := fun hEq => absurd h (by simp [hEq])
      simp [insertDesc, h, hbne, ih hl']
    · by_cases hb' : key b = key a
      · simp [insertDesc, h, hb']
      · simp [insertDesc, h, hb']

/-- Stability of `sortDesc`: within every key class the output subsequence is
exactly the input subsequence, in the same order. -/
theorem sortDesc_filter_stable {α β : Type} [LinearOrder β] [DecidableEq β]
    (key : α → β) (l : List α) (c : β) :
    (sortDesc key l).filter (fun x => key x = c)
      = l.filter (fun x => key x = c) := by
  induction l with
  | nil => simp [sortDesc]
  | cons a l ih =>
    by_cases ha : key a = c
    · have := insertDesc_filter_eq key a (sortDesc key l) (sortDesc_pairwise key l)
      rw [sortDesc]
      rw [ha] at this
      simp [this, ha, ih]
    · rw [sortDesc, insertDesc_filter_ne key a _ c ha]
      simp [ih, ha]

/-! ### Categorical encoding (`_encode_categorical`, lines 316-321) -/

/-- pandas `Series.unique()`: the distinct values of a column in order of
first appearance.  Structurally recursive via a `seen` accumulator. -/
def uniqueFirstAux (seen : List String) : List String → List String
  | [] => []
  | a :: l => if a ∈ seen then uniqueFirstAux seen l else a :: uniqueFirstAux (a :: seen) l

/-- Model of `self.reference_data[column_name].unique()`. -/
def uniqueFirst (l : List String) : List String :=
  uniqueFirstAux [] l

/-- Model of `_encode_categorical(value, column_name)` applied to the column contents:
if the value occurs in the column's unique list, its code is its index in
that list (`pd.Categorical([value], categories=unique_values).codes[0]`);
otherwise the default code 0 is returned. -/
def encodeCategorical (col : List String) (value : String) : Nat :=
  if value ∈ uniqueFirst col then (uniqueFirst col).indexOf value else 0

theorem mem_uniqueFirstAux (seen l : List String) (a : String) :
    a ∈ uniqueFirstAux seen l ↔ a ∈ l ∧ a ∉ seen := by
  induction l generalizing seen with
  | nil => simp [uniqueFirstAux]
  | cons b l ih =>
    by_cases hb : b ∈ seen
    · rw [uniqueFirstAux, if_pos hb, ih]
      constructor
      · rintro ⟨h1, h2⟩
        exact ⟨List.mem_cons_of_mem b h1, h2⟩
      · rintro ⟨h1, h2⟩
        rcases List.mem_cons.mp h1 with h | h
        · exact absurd (h ▸ hb) h2
        · exact ⟨h, h2⟩
    · rw [uniqueFirstAux, if_neg hb]
      constructor
      · intro h
        rcases List.mem_cons.mp h with h | h
        · exact ⟨h ▸ List.mem_cons_self b l, h ▸ hb⟩
        · rcases (ih (b :: seen)).mp h with ⟨h1, h2⟩
          exact ⟨List.mem_cons_of_mem b h1,
            fun hs => h2 (List.mem_cons_of_mem b hs)⟩
      · rintro ⟨h1, h2⟩
        by_cases hab : a = b
        · exact hab ▸ List.mem_cons_self a _
        · rcases List.mem_cons.mp h1 with h | h
          · exact absurd h hab
          · refine List.mem_cons_of_mem b ((ih (b :: seen)).mpr ⟨h, ?_⟩)
            intro hs
            rcases List.mem_cons.mp hs with h' | h'
            · exact hab h'
            · exact h2 h'

theorem mem_uniqueFirst (l : List String) (a : String) :
    a ∈ uniqueFirst l ↔ a ∈ l := by
  simp [uniqueFirst, mem_uniqueFirstAux]

/-! ### Spatial features (`_calculate_spatial_features`, lines 280-314) -/

/-- Number of reference branches within `r` km of the point — the
`competitors` accumulator of the radius loop. -/
def competitorsWithin (sys : MLSystem) (lat lng r : ℚ) : Nat :=
  (sys.reference_data.filter
    (fun b => decide (sys.geodesicKm (lat, lng) (b.latitude, b.longitude) ≤ r))).length

/-- Branches within `r` km whose `Category` equals the candidate category —
the `same_category` accumulator. -/
def sameCategoryWithin (sys : MLSystem) (lat lng : ℚ) (category : String) (r : ℚ) : Nat :=
  (sys.reference_data.filter
    (fun b => decide (sys.geodesicKm (lat, lng) (b.latitude, b.longitude) ≤ r)
      && decide (b.Category = category))).length

/-- Summed `GTV2024` of branches within `r` km — the `competitor_revenue`
accumulator. -/
def revenueWithin (sys : MLSystem) (lat lng r : ℚ) : ℚ :=
  ((sys.reference_data.filter
    (fun b => decide (sys.geodesicKm (lat, lng) (b.latitude, b.longitude) ≤ r))).map
      (fun b => b.GTV2024)).sum

/-- The intensity `competitor_revenue / (competitors + 1)` (line 312). -/
def competitionIntensity (sys : MLSystem) (lat lng r : ℚ) : ℚ :=
  revenueWithin sys lat lng r / ((competitorsWithin sys lat lng r : ℚ) + 1)

/-- The `dist_to_<name>` entries written by the landmark loop, in loop order. -/
def landmarkFeatures (sys : MLSystem) (lat lng : ℚ) : List (String × ℚ) :=
  sys.landmarks.map (fun p => ("dist_to_" ++ p.1, sys.geodesicKm (lat, lng) p.2))

/-- Model of the minimum distance over `self.landmarks` (line 290).
Python's `min` raises on an empty landmark table; the `getD 0` default is
never consulted when at least one landmark is configured. -/
def nearestLandmarkDist (sys : MLSystem) (lat lng : ℚ) : ℚ :=
  (((landmarkFeatures sys lat lng).map Prod.snd).min?).getD 0

/-- The four entries one iteration of the radius loop writes, newest first
(`rname` is the rendered `f'{radius}km'` suffix). -/
def radiusFeatures (sys : MLSystem) (lat lng : ℚ) (category : String)
    (rname : String) (r : ℚ) : List (String × ℚ) :=
  [("competition_intensity_" ++ rname, competitionIntensity sys lat lng r),
   ("competitor_revenue_" ++ rname, revenueWithin sys lat lng r),
   ("same_category_competitors_" ++ rname, sameCategoryWithin sys lat lng category r),
   ("competitors_" ++ rname, (competitorsWithin sys lat lng r : ℚ))]

/-- Model of `_calculate_spatial_features(lat, lng, category)`: the features dict,
as an association list in most-recent-write-first order (so `List.lookup`
agrees with the dict lookup).  Write order in the source: latitude,
longitude, the landmark distances, `dist_to_nearest_landmark`, then the
radius blocks for 0.5, 1.0 and 2.0 km. -/
def calculateSpatialFeatures (sys : MLSystem) (lat lng : ℚ) (category : String) :
    List (String × ℚ) :=
  radiusFeatures sys lat lng category "2.0km" 2
    ++ radiusFeatures sys lat lng category "1.0km" 1
    ++ radiusFeatures sys lat lng category "0.5km" (1/2)
    ++ [("dist_to_nearest_landmark", nearestLandmarkDist sys lat lng)]
    ++ (landmarkFeatures sys lat lng).reverse
    ++ [("longitude", lng), ("latitude", lat)]

/-- Python `features.get(k, d)` on the association-list model of the dict. -/
def featGet (features : List (String × ℚ)) (k : String) (d : ℚ) : ℚ :=
  (features.lookup k).getD d

/-! ### Score labelling (`_categorize_score` 323-328,
`_generate_recommendation` 330-339, `_generate_spatial_insights` 341-354) -/

/-- Model of `_categorize_score(score)`. -/
def categorizeScore (score : ℚ) : String :=
  if score ≥ 3/10 then "High"
  else if score ≥ 2/10 then "Medium"
  else if score ≥ 1/10 then "Low"
  else "Very Low"

/-- Model of `_generate_recommendation(score)`. -/
def generateRecommendation (score : ℚ) : String :=
  if score ≥ 3/10 then "🟢 RECOMMENDED: Good potential location"
  else if score ≥ 2/10 then "🟡 CONSIDER: Moderate potential, validate with research"
  else if score ≥ 1/10 then "🟠 CAUTION: Low potential, consider alternatives"
  else "🔴 NOT RECOMMENDED: Very low potential"

/-- Model of `_generate_spatial_insights(features)`.  The source reads
`features['dist_to_kemang']` etc. with dict subscripts, which would raise
`KeyError` on a missing key; the scoring pipeline always populates these keys
(when the landmark artifact contains `kemang` and `sudirman_cbd`), so the
lookup default never matters there.  `1e9` is 10^9. -/
def generateSpatialInsights (features : List (String × ℚ)) : List String :=
  let insights : List String :=
    (if featGet features "dist_to_kemang" 0 < 2 then ["Close to trendy Kemang area"] else [])
    ++ (if featGet features "dist_to_sudirman_cbd" 0 < 3 then ["Near main business district"] else [])
    ++ (if featGet features "competitors_1.0km" 0 > 5 then ["High market activity area"] else [])
    ++ (if featGet features "competition_intensity_1.0km" 0 > 1000000000 then
          ["Strong market demand indicated"] else [])
  if insights = [] then ["Standard market conditions"] else insights

/-! ### `score_new_location` (lines 43-92) -/

/-- The `'key_factors'` sub-dict of a score result. -/
structure KeyFactors where
  distance_to_kemang_km : ℚ
  distance_to_cbd_km : ℚ
  distance_to_senayan_km : ℚ
  competitors_1km : ℚ
  market_intensity_billions : ℚ
deriving Repr, DecidableEq

/-- The `'spatial_score'` sub-dict of a score result. -/
structure SpatialScore where
  score : ℚ
  level : String
  confidence : String
deriving Repr, DecidableEq

/-- The fixed-shape result dict of `score_new_location`. -/
structure ScoreResult where
  coordinates : ℚ × ℚ
  district : String
  category : String
  spatial_score : SpatialScore
  key_factors : KeyFactors
  recommendation : String
  spatial_insights : List String
deriving Repr, DecidableEq

/-- The column `self.reference_data[column_name]` for the two column names
`_encode_categorical` is called with; any other name would be a pandas
`KeyError`. -/
def columnOf (sys : MLSystem) (column_name : String) : List String :=
  if column_name = "districtName" then sys.reference_data.map (fun b => b.districtName)
  else if column_name = "Category" then sys.reference_data.map (fun b => b.Category)
  else []

/-- Model of `score_new_location(latitude, longitude, district, category)`.  Note that
`'score'` is the prediction rounded to 3 decimals while `'level'` and
`'recommendation'` are computed from the unrounded prediction. -/
def scoreNewLocation (sys : MLSystem) (lat lng : ℚ) (district category : String) :
    ScoreResult :=
  let features :=
    ("Category", (encodeCategorical (columnOf sys "Category") category : ℚ)) ::
    ("districtName", (encodeCategorical (columnOf sys "districtName") district : ℚ)) ::
    calculateSpatialFeatures sys lat lng category
  let feature_vector := sys.spatial_features.map (fun f => featGet features f 0)
  let score := sys.spatialPredict (sys.spatialScale feature_vector)
  { coordinates := (lat, lng)
    district := district
    category := category
    spatial_score :=
      { score := roundTo 3 score
        level := categorizeScore score
        confidence := "Medium" }
    key_factors :=
      { distance_to_kemang_km := roundTo 2 (featGet features "dist_to_kemang" 0)
        distance_to_cbd_km := roundTo 2 (featGet features "dist_to_sudirman_cbd" 0)
        distance_to_senayan_km := roundTo 2 (featGet features "dist_to_senayan" 0)
        competitors_1km := featGet features "competitors_1.0km" 0
        market_intensity_billions :=
          roundTo 2 (featGet features "competition_intensity_1.0km" 0 / 1000000000) }
    recommendation := generateRecommendation score
    spatial_insights := generateSpatialInsights features }

/-- A candidate location tuple `(lat, lng, district, category)` as passed to
`compare_locations`. -/
def scoreLocation (sys : MLSystem) (loc : ℚ × ℚ × String × String) : ScoreResult :=
  scoreNewLocation sys loc.1 loc.2.1 loc.2.2.1 loc.2.2.2

/-- Model of `compare_locations(locations_list)` (lines 145-164): score each tuple
independently, then `results.sort(key=..., reverse=True)` — Python's stable
sort in descending score order. -/
def compareLocations (sys : MLSystem) (locations_list : List (ℚ × ℚ × String × String)) :
    List ScoreResult :=
  sortDesc (fun r => r.spatial_score.score) (locations_list.map (scoreLocation sys))

/-- State-passing form of `score_new_location`: the method reads `self.*`
but contains no assignment to `self`, so the system state is returned
unchanged. -/
def scoreNewLocationS (sys : MLSystem) (lat lng : ℚ) (district category : String) :
    ScoreResult × MLSystem :=
  (scoreNewLocation sys lat lng district category, sys)

/-! ### Portfolio analysis (`analyze_portfolio`, lines 94-143) -/

/-- Model of `pd.cut(gap, bins=[-np.inf, -0.1, 0.1, np.inf], labels=[...])` with the
default `right=True`: right-closed bins, i.e. (-∞, -0.1] ↦ Underperforming,
(-0.1, 0.1] ↦ As Expected, (0.1, ∞) ↦ Overperforming. -/
def gapStatus (gap : ℚ) : String :=
  if gap ≤ -(1/10) then "Underperforming"
  else if gap ≤ 1/10 then "As Expected"
  else "Overperforming"

/-- One row of the derived `portfolio` frame: the five retained reference
columns plus `predicted_score`, `performance_gap` and `status`. -/
structure PortfolioRow where
  branch_id : Nat
  branchName : String
  districtName : String
  Category : String
  performance_score : ℚ
  predicted_score : ℚ
  performance_gap : ℚ
  status : String
deriving Repr, DecidableEq

/-- The `portfolio` frame after lines 113-122: per-branch prediction,
`performance_gap = performance_score - predicted_score`, and status label. -/
def portfolioRows (sys : MLSystem) : List PortfolioRow :=
  sys.reference_data.map (fun b =>
    let p := sys.existingPredict b
    { branch_id := b.branch_id
      branchName := b.branchName
      districtName := b.districtName
      Category := b.Category
      performance_score := b.performance_score
      predicted_score := p
      performance_gap := b.performance_score - p
      status := gapStatus (b.performance_score - p) })

/-- pandas `Series.mean()`: sum over length.  (In ℚ an empty column gives
division by zero = 0 where pandas gives NaN; the source only takes means of
reference-table columns and groups, which are nonempty in use.) -/
def listMean (l : List ℚ) : ℚ :=
  l.sum / (l.length : ℚ)

/-- Ascending stable insertion by key (used for pandas `groupby`, whose
group keys come out in sorted order). -/
def insertAsc {α β : Type} [LinearOrder β] (key : α → β) (a : α) : List α → List α
  | [] => [a]
  | b :: l => if key b < key a then b :: insertAsc key a l else a :: b :: l

/-- Ascending stable sort by key. -/
def sortAsc {α β : Type} [LinearOrder β] (key : α → β) : List α → List α
  | [] => []
  | a :: l => insertAsc key a (sortAsc key l)

/-- The `'portfolio_summary'` sub-dict (lines 125-130). -/
structure PortfolioSummary where
  total_branches : Nat
  avg_performance : ℚ
  avg_potential : ℚ
  optimization_gap : ℚ
deriving Repr, DecidableEq

/-- Model of `portfolio['status'].value_counts().to_dict()`: the resulting dict maps
each status label to its row count (`value_counts` enumerates keys by
descending count, but the key ↦ count mapping of the dict is
order-insensitive). -/
def statusDistribution (rows : List PortfolioRow) : List (String × Nat) :=
  [("Underperforming", (rows.filter (fun r => decide (r.status = "Underperforming"))).length),
   ("As Expected", (rows.filter (fun r => decide (r.status = "As Expected"))).length),
   ("Overperforming", (rows.filter (fun r => decide (r.status = "Overperforming"))).length)]

/-- The mean performance/gap aggregation of `_analyze_by_district` /
`_analyze_by_category` (lines 356-368): group keys in sorted order, each with
`agg({'performance_score': 'mean', 'performance_gap': 'mean'}).round(3)`. -/
def analyzeBy (key : PortfolioRow → String) (rows : List PortfolioRow) :
    List (String × ℚ × ℚ) :=
  (sortAsc (fun s => s) (uniqueFirst (rows.map key))).map (fun k =>
    let grp := rows.filter (fun r => decide (key r = k))
    (k, roundTo 3 (listMean (grp.map (fun r => r.performance_score))),
      roundTo 3 (listMean (grp.map (fun r => r.performance_gap)))))

/-- The result dict of `analyze_portfolio`.  `rows` is the intermediate
`portfolio` frame the dict's entries are all derived from; the three-column
record projections of the source are kept as tuples. -/
structure PortfolioAnalysis where
  rows : List PortfolioRow
  portfolio_summary : PortfolioSummary
  status_distribution : List (String × Nat)
  top_performers : List (String × String × ℚ)
  optimization_candidates : List (String × String × ℚ)
  best_practice_sources : List (String × String × ℚ)
  district_insights : List (String × ℚ × ℚ)
  category_insights : List (String × ℚ × ℚ)
deriving Repr, DecidableEq

/-- Model of `analyze_portfolio()`. -/
def analyzePortfolio (sys : MLSystem) : PortfolioAnalysis :=
  let portfolio := portfolioRows sys
  { rows := portfolio
    portfolio_summary :=
      { total_branches := portfolio.length
        avg_performance := roundTo 3 (listMean (portfolio.map (fun r => r.performance_score)))
        avg_potential := roundTo 3 (listMean (portfolio.map (fun r => r.predicted_score)))
        optimization_gap := roundTo 3 (portfolio.map (fun r => r.performance_gap)).sum }
    status_distribution := statusDistribution portfolio
    top_performers := (nlargest 5 (fun r => r.performance_score) portfolio).map
      (fun r => (r.branchName, r.districtName, r.performance_score))
    optimization_candidates := (nsmallest 5 (fun r => r.performance_gap) portfolio).map
      (fun r => (r.branchName, r.districtName, r.performance_gap))
    best_practice_sources := (nlargest 5 (fun r => r.performance_gap) portfolio).map
      (fun r => (r.branchName, r.districtName, r.performance_gap))
    district_insights := analyzeBy (fun r => r.districtName) portfolio
    category_insights := analyzeBy (fun r => r.Category) portfolio }

/-! ### `find_optimal_districts` (lines 166-197) -/

/-- One record of the list returned by `find_optimal_districts`. -/
structure OptimalDistrict where
  district : String
  avg_performance : ℚ
  existing_branches : Nat
deriving Repr, DecidableEq

/-- Model of `groupby('districtName')['performance_score'].mean()`: district keys in
sorted order, each with its mean performance. -/
def districtMeanPerformance (rows : List Branch) : List (String × ℚ) :=
  (sortAsc (fun s => s) (uniqueFirst (rows.map (fun b => b.districtName)))).map (fun d =>
    (d, listMean ((rows.filter (fun b => decide (b.districtName = d))).map
      (fun b => b.performance_score))))

/-- Model of `find_optimal_districts(category, num_districts)`. -/
def findOptimalDistricts (sys : MLSystem) (category : String) (num_districts : Nat) :
    List OptimalDistrict :=
  let category_data := sys.reference_data.filter (fun b => decide (b.Category = category))
  let district_performance :=
    if category_data.length = 0 then districtMeanPerformance sys.reference_data
    else districtMeanPerformance category_data
  (nlargest num_districts (fun p => p.2) district_performance).map (fun p =>
    { district := p.1
      avg_performance := roundTo 3 p.2
      existing_branches :=
        if category_data.length = 0 then 0
        else (category_data.filter (fun b => decide (b.districtName = p.1))).length })

/-! ### `generate_expansion_report` (lines 199-277) -/

/-- The default for `focus_categories=None` (lines 211-212). -/
def defaultFocusCategories : List String :=
  ["Fresh Juices", "Salads and Bowls", "Coffee and Hot Beverages"]

/-- The fixed sample coordinates `coords` (lines 229-233). -/
def expansionCoords : List (ℚ × ℚ × String) :=
  [(-(6225/1000), 106825/1000, "Setia Budi"),
   (-(6235/1000), 106805/1000, "Kebayoran Baru"),
   (-(6245/1000), 106795/1000, "Kebayoran Baru")]

/-- The category-cycling loop (lines 235-237):
`focus_categories[i % len(focus_categories)]` raises `ZeroDivisionError`
when the focus list is empty — the internal failure of report assembly that
is reachable in this pure model (and is caught by the `except` clause). -/
def sampleLocations (focus_categories : List String) :
    Except String (List (ℚ × ℚ × String × String)) :=
  if focus_categories.length = 0 then
    Except.error "integer division or modulo by zero"
  else
    Except.ok (expansionCoords.enum.map (fun p =>
      (p.2.1, p.2.2.1, p.2.2.2, focus_categories.getD (p.1 % focus_categories.length) "")))

/-- One entry of `category_opportunities` (lines 220-225). -/
structure CategoryOpportunity where
  category : String
  optimal_districts : List OptimalDistrict
deriving Repr, DecidableEq

/-- The `'executive_summary'` sub-dict: the success path fills the first
four keys, the error path fills `target_new_branches` and `status`. -/
structure ExecutiveSummary where
  target_new_branches : Nat
  focus_categories : Option (List String)
  recommended_districts : Option (List String)
  total_investment_estimate : Option String
  status : Option String
deriving Repr, DecidableEq

/-- The `'portfolio_optimization'` sub-dict (lines 248-252). -/
structure PortfolioOptimization where
  current_performance : PortfolioSummary
  optimization_candidates : Nat
  best_practice_sources : Nat
deriving Repr, DecidableEq

/-- The static `'risk_assessment'` sub-dict (lines 255-260). -/
def riskAssessment : List (String × String) :=
  [("model_confidence", "Medium (R² = 0.451-0.464)"),
   ("market_risk", "Low-Medium"),
   ("competition_risk", "Medium"),
   ("location_risk", "Medium - validate with market research")]

/-- The static `'next_steps'` list (lines 261-266). -/
def nextSteps : List String :=
  ["Validate top locations with field research",
   "Analyze foot traffic patterns",
   "Study local competition details",
   "Optimize underperforming existing branches"]

/-- The dict-shaped result of `generate_expansion_report`: the success path
fills every field, the error path fills `error` and the two
`executive_summary` keys only (absent dict keys are `none`). -/
structure ExpansionReport where
  error : Option String
  executive_summary : ExecutiveSummary
  portfolio_optimization : Option PortfolioOptimization
  category_opportunities : Option (List CategoryOpportunity)
  location_recommendations : Option (List ScoreResult)
  risk_assessment : Option (List (String × String))
  next_steps : Option (List String)
deriving Repr, DecidableEq

/-- The `try` body of `generate_expansion_report` (lines 214-267).
`target_branches` is a (nonnegative) int; `sample_locations[:target_branches]`
is `List.take`. -/
def generateExpansionReportBody (sys : MLSystem) (target_branches : Nat)
    (focus_categories : List String) : Except String ExpansionReport :=
  match sampleLocations focus_categories with
  | Except.error e => Except.error e
  | Except.ok samples =>
    let portfolio := analyzePortfolio sys
    let category_opportunities : List CategoryOpportunity :=
      focus_categories.map (fun category =>
        { category := category
          optimal_districts := findOptimalDistricts sys category 2 })
    let location_scores := compareLocations sys (samples.take target_branches)
    Except.ok
      { error := none
        executive_summary :=
          { target_new_branches := target_branches
            focus_categories := some focus_categories
            recommended_districts := some ["Setia Budi", "Kebayoran Baru"]
            total_investment_estimate :=
              some (toString (target_branches * 500) ++ "M - "
                ++ toString (target_branches * 800) ++ "M IDR")
            status := none }
        portfolio_optimization := some
          { current_performance := portfolio.portfolio_summary
            optimization_candidates := portfolio.optimization_candidates.length
            best_practice_sources := portfolio.best_practice_sources.length }
        category_opportunities := some category_opportunities
        location_recommendations := some location_scores
        risk_assessment := some riskAssessment
        next_steps := some nextSteps }

/-- Model of `generate_expansion_report(target_branches, focus_categories)`: resolve
the `None` default, run the `try` body, and on any exception return the
error-shaped dict of lines 269-277 instead of propagating. -/
def generateExpansionReport (sys : MLSystem) (target_branches : Nat)
    (focus_categories : Option (List String)) : ExpansionReport :=
  match generateExpansionReportBody sys target_branches
      (focus_categories.getD defaultFocusCategories) with
  | Except.ok report => report
  | Except.error e =>
    { error := some e
      executive_summary :=
        { target_new_branches := target_branches
          focus_categories := none
          recommended_districts := none
          total_investment_estimate := none
          status := some "Error occurred during report generation" }
      portfolio_optimization := none
      category_opportunities := none
      location_recommendations := none
      risk_assessment := none
      next_steps := none }

/-! ### Concrete instances used to exercise the theorems -/

/-- A small concrete system: three landmarks at the coordinates the scoring
path reads, two reference branches, a constant geodesic distance of 5 km and
a constant spatial prediction (so that candidate locations tie on score). -/
def testSys : MLSystem :=
  { geodesicKm := fun _ _ => 5
    landmarks := [("kemang", (1, 2)), ("sudirman_cbd", (3, 4)), ("senayan", (5, 6))]
    reference_data :=
      [{ branch_id := 1, branchName := "Branch A", districtName := "Setia Budi",
         Category := "Fresh Juices", latitude := 0, longitude := 0,
         GTV2024 := 100, performance_score := 1/2 },
       { branch_id := 2, branchName := "Branch B", districtName := "Kebayoran Baru",
         Category := "Salads and Bowls", latitude := 1, longitude := 1,
         GTV2024 := 200, performance_score := 1/4 }]
    spatial_features := ["latitude", "longitude"]
    spatialScale := fun v => v
    spatialPredict := fun _ => 1/4
    existingPredict := fun b => b.performance_score }

/-- A one-branch system whose predicted score exceeds the observed score by
exactly 0.1, putting the branch on the `pd.cut` bin boundary. -/
def boundarySys : MLSystem :=
  { geodesicKm := fun _ _ => 5
    landmarks := [("kemang", (1, 2)), ("sudirman_cbd", (3, 4)), ("senayan", (5, 6))]
    reference_data :=
      [{ branch_id := 1, branchName := "Branch A", districtName := "Setia Budi",
         Category := "Fresh Juices", latitude := 0, longitude := 0,
         GTV2024 := 100, performance_score := 0 }]
    spatial_features := ["latitude", "longitude"]
    spatialScale := fun v => v
    spatialPredict := fun _ => 1/4
    existingPredict := fun _ => 1/10 }

/-- The portfolio row `analyze_portfolio` derives from the first branch of
`testSys`: prediction equals observation, so the gap is 0. -/
def portfolioTestRow : PortfolioRow :=
  { branch_id := 1, branchName := "Branch A", districtName := "Setia Budi",
    Category := "Fresh Juices", performance_score := 1/2, predicted_score := 1/2,
    performance_gap := 0, status := "As Expected" }

/-! ### Shared lemmas -/

/-- Threshold case analysis shared by the score-labelling helpers: the four
score ranges and the label/recommendation pair each produces. -/
theorem score_label_cases (s : ℚ) :
    (3/10 ≤ s ∧ categorizeScore s = "High"
      ∧ generateRecommendation s = "🟢 RECOMMENDED: Good potential location")
  ∨ (2/10 ≤ s ∧ s < 3/10 ∧ categorizeScore s = "Medium"
      ∧ generateRecommendation s = "🟡 CONSIDER: Moderate potential, validate with research")
  ∨ (1/10 ≤ s ∧ s < 2/10 ∧ categorizeScore s = "Low"
      ∧ generateRecommendation s = "🟠 CAUTION: Low potential, consider alternatives")
  ∨ (s < 1/10 ∧ categorizeScore s = "Very Low"
      ∧ generateRecommendation s = "🔴 NOT RECOMMENDED: Very low potential") := by
  by_cases h3 : s ≥ 3/10
  · exact Or.inl ⟨h3, by rw [categorizeScore, if_pos h3],
      by rw [generateRecommendation, if_pos h3]⟩
  · by_cases h2 : s ≥ 2/10
    · refine Or.inr (Or.inl ⟨h2, lt_of_not_ge h3, ?_, ?_⟩)
      · rw [categorizeScore, if_neg h3, if_pos h2]
      · rw [generateRecommendation, if_neg h3, if_pos h2]
    · by_cases h1 : s ≥ 1/10
      · refine Or.inr (Or.inr (Or.inl ⟨h1, lt_of_not_ge h2, ?_, ?_⟩))
        · rw [categorizeScore, if_neg h3, if_neg h2, if_pos h1]
        · rw [generateRecommendation, if_neg h3, if_neg h2, if_pos h1]
      · refine Or.inr (Or.inr (Or.inr ⟨lt_of_not_ge h1, ?_, ?_⟩))
        · rw [categorizeScore, if_neg h3, if_neg h2, if_neg h1]
        · rw [generateRecommendation, if_neg h3, if_neg h2, if_neg h1]

/-- The `insights if insights else [fallback]` idiom never returns an empty
list. -/
theorem fallback_ne_nil (l : List String) :
    (if l = [] then ["Standard market conditions"] else l) ≠ [] := by
  split
  · simp
  · assumption

/-- The insights list always ends nonempty: the fallback replaces an empty
rule output. -/
theorem generateSpatialInsights_ne_nil (features : List (String × ℚ)) :
    generateSpatialInsights features ≠ [] :=
  fallback_ne_nil _

/-! ### C3 — score thresholds for level and recommendation -/

/-- C3: `score_new_location` derives level and recommendation by fixed
thresholds: s ≥ 0.3 ↦ High/recommended verdict; 0.2 ≤ s < 0.3 ↦
Medium/consider verdict; 0.1 ≤ s < 0.2 ↦ Low/caution verdict; s < 0.1 ↦
Very Low/not-recommended verdict (`_categorize_score` and
`_generate_recommendation`). -/
theorem categorize_recommend_thresholds (s : ℚ) :
    (3/10 ≤ s ∧ categorizeScore s = "High"
      ∧ generateRecommendation s = "🟢 RECOMMENDED: Good potential location")
  ∨ (2/10 ≤ s ∧ s < 3/10 ∧ categorizeScore s = "Medium"
      ∧ generateRecommendation s = "🟡 CONSIDER: Moderate potential, validate with research")
  ∨ (1/10 ≤ s ∧ s < 2/10 ∧ categorizeScore s = "Low"
      ∧ generateRecommendation s = "🟠 CAUTION: Low potential, consider alternatives")
  ∨ (s < 1/10 ∧ categorizeScore s = "Very Low"
      ∧ generateRecommendation s = "🔴 NOT RECOMMENDED: Very low potential") :=
  score_label_cases s

/-! ### C10 — level and recommendation are mutually consistent -/

/-- C10: in every `score_new_location` result the qualitative level and the
recommendation text co-occur, both being derived from the same unrounded
prediction: High ↔ RECOMMENDED, Medium ↔ CONSIDER, Low ↔ CAUTION,
Very Low ↔ NOT RECOMMENDED. -/
theorem level_recommendation_consistent (sys : MLSystem) (lat lng : ℚ)
    (district category : String) :
    ((scoreNewLocation sys lat lng district category).spatial_score.level = "High"
      ↔ (scoreNewLocation sys lat lng district category).recommendation
          = "🟢 RECOMMENDED: Good potential location")
  ∧ ((scoreNewLocation sys lat lng district category).spatial_score.level = "Medium"
      ↔ (scoreNewLocation sys lat lng district category).recommendation
          = "🟡 CONSIDER: Moderate potential, validate with research")
  ∧ ((scoreNewLocation sys lat lng district category).spatial_score.level = "Low"
      ↔ (scoreNewLocation sys lat lng district category).recommendation
          = "🟠 CAUTION: Low potential, consider alternatives")
  ∧ ((scoreNewLocation sys lat lng district category).spatial_score.level = "Very Low"
      ↔ (scoreNewLocation sys lat lng district category).recommendation
          = "🔴 NOT RECOMMENDED: Very low potential") := by
  have key : ∀ s : ℚ,
      ((categorizeScore s = "High"
        ↔ generateRecommendation s = "🟢 RECOMMENDED: Good potential location")
      ∧ (categorizeScore s = "Medium"
        ↔ generateRecommendation s = "🟡 CONSIDER: Moderate potential, validate with research")
      ∧ (categorizeScore s = "Low"
        ↔ generateRecommendation s = "🟠 CAUTION: Low potential, consider alternatives")
      ∧ (categorizeScore s = "Very Low"
        ↔ generateRecommendation s = "🔴 NOT RECOMMENDED: Very low potential")) := by
    intro s
    rcases score_label_cases s with ⟨_, hc, hr⟩ | ⟨_, _, hc, hr⟩ | ⟨_, _, hc, hr⟩ | ⟨_, hc, hr⟩ <;>
      rw [hc, hr] <;> exact by decide
  exact key _

/-! ### C9 — the spatial-insights list is never empty -/

/-- C9: the `spatial_insights` list of every `score_new_location` result is
nonempty; when none of the four insight rules fires,
`_generate_spatial_insights` returns the fallback singleton
`['Standard market conditions']` instead of an empty list. -/
theorem spatial_insights_nonempty (sys : MLSystem) (lat lng : ℚ)
    (district category : String) :
    (scoreNewLocation sys lat lng district category).spatial_insights ≠ []
  ∧ (∀ features : List (String × ℚ),
      ¬ featGet features "dist_to_kemang" 0 < 2 →
      ¬ featGet features "dist_to_sudirman_cbd" 0 < 3 →
      ¬ featGet features "competitors_1.0km" 0 > 5 →
      ¬ featGet features "competition_intensity_1.0km" 0 > 1000000000 →
      generateSpatialInsights features = ["Standard market conditions"]) := by
  constructor
  · exact generateSpatialInsights_ne_nil _
  · intro features h1 h2 h3 h4
    unfold generateSpatialInsights
    rw [if_neg h1, if_neg h2, if_neg h3, if_neg h4]
    rfl

/-- Instantiation of `spatial_insights_nonempty`: a concrete score result
with a nonempty insights list, and a concrete feature map (every landmark
5 km away, no competitors) on which no rule fires and the fallback is
returned. -/
theorem spatial_insights_nonempty_witness :
    (scoreNewLocation testSys 0 0 "Setia Budi" "Fresh Juices").spatial_insights ≠ []
  ∧ generateSpatialInsights
      [("dist_to_kemang", 5), ("dist_to_sudirman_cbd", 5)]
      = ["Standard market conditions"] :=
  ⟨(spatial_insights_nonempty testSys 0 0 "Setia Budi" "Fresh Juices").1,
   (spatial_insights_nonempty testSys 0 0 "Setia Budi" "Fresh Juices").2
     [("dist_to_kemang", 5), ("dist_to_sudirman_cbd", 5)]
     (by decide) (by decide) (by decide) (by decide)⟩

/-! ### C8 — `score_new_location` is deterministic -/

/-- C8: with the loaded artifacts held fixed, `score_new_location` mutates
nothing and identical input tuples give identical results: the state-passing
form returns the state unchanged, and a second call on the returned state
with the same `(latitude, longitude, district, category)` returns the same
result (there is no randomness anywhere in the pipeline). -/
theorem score_new_location_deterministic (sys : MLSystem) (lat lng : ℚ)
    (district category : String) :
    (scoreNewLocationS sys lat lng district category).2 = sys
  ∧ (scoreNewLocationS (scoreNewLocationS sys lat lng district category).2
        lat lng district category).1
      = (scoreNewLocationS sys lat lng district category).1 :=
  ⟨rfl, rfl⟩

/-! ### C5 — unknown categorical values encode to the default code 0 -/

/-- C5: `_encode_categorical` never rejects a value: a string absent from the
unique values of the reference-table column gets the default code 0, and a
present string gets its position in the column's first-appearance unique
ordering (the `pd.Categorical(..., categories=unique_values)` code). -/
theorem encode_categorical_default_or_code (sys : MLSystem) (value column_name : String) :
    (value ∉ columnOf sys column_name →
      encodeCategorical (columnOf sys column_name) value = 0)
  ∧ (value ∈ columnOf sys column_name →
      (uniqueFirst (columnOf sys column_name)).get?
        (encodeCategorical (columnOf sys column_name) value) = some value) := by
  constructor
  · intro hv
    rw [encodeCategorical, if_neg (fun h => hv ((mem_uniqueFirst _ _).mp h))]
  · intro hv
    have hu : value ∈ uniqueFirst (columnOf sys column_name) :=
      (mem_uniqueFirst _ _).mpr hv
    rw [encodeCategorical, if_pos hu]
    exact List.indexOf_get? hu

/-- Instantiation of `encode_categorical_default_or_code` on the district
column of `testSys`: an unseen district encodes to 0, a seen district's code
indexes it in the unique ordering. -/
theorem encode_categorical_default_or_code_witness :
    ("Tebet" ∉ columnOf testSys "districtName"
      ∧ encodeCategorical (columnOf testSys "districtName") "Tebet" = 0)
  ∧ ("Kebayoran Baru" ∈ columnOf testSys "districtName"
      ∧ (uniqueFirst (columnOf testSys "districtName")).get?
          (encodeCategorical (columnOf testSys "districtName") "Kebayoran Baru")
        = some "Kebayoran Baru") :=
  ⟨⟨by decide,
    (encode_categorical_default_or_code testSys "Tebet" "districtName").1 (by decide)⟩,
   ⟨by decide,
    (encode_categorical_default_or_code testSys "Kebayoran Baru" "districtName").2 (by decide)⟩⟩

/-! ### C4 — `compare_locations` sorts descending and is stable -/

/-- C4: `compare_locations` returns the individually scored locations as a
permutation sorted in weakly descending score order, and the sort is stable:
within every score class the output preserves the input order (so two
locations with equal scores keep their relative order). -/
theorem compare_locations_sorted_stable (sys : MLSystem)
    (locations_list : List (ℚ × ℚ × String × String)) :
    ((compareLocations sys locations_list).Pairwise
      (fun a b => b.spatial_score.score ≤ a.spatial_score.score))
  ∧ (compareLocations sys locations_list).Perm
      (locations_list.map (scoreLocation sys))
  ∧ ∀ c : ℚ,
      (compareLocations sys locations_list).filter
        (fun r : ScoreResult => decide (r.spatial_score.score = c))
      = (locations_list.map (scoreLocation sys)).filter
        (fun r : ScoreResult => decide (r.spatial_score.score = c)) :=
  ⟨sortDesc_pairwise _ _, sortDesc_perm _ _,
   fun c => sortDesc_filter_stable (fun r : ScoreResult => r.spatial_score.score) _ c⟩

/-! ### C7 — competitor features grow with the radius -/

theorem competitorsWithin_mono (sys : MLSystem) (lat lng : ℚ) {r1 r2 : ℚ} (h : r1 ≤ r2) :
    competitorsWithin sys lat lng r1 ≤ competitorsWithin sys lat lng r2 := by
  apply List.Sublist.length_le
  apply List.monotone_filter_right
  intro b hb
  simp only [decide_eq_true_eq] at hb ⊢
  exact le_trans hb h

theorem sameCategoryWithin_mono (sys : MLSystem) (lat lng : ℚ) (category : String)
    {r1 r2 : ℚ} (h : r1 ≤ r2) :
    sameCategoryWithin sys lat lng category r1 ≤ sameCategoryWithin sys lat lng category r2 := by
  apply List.Sublist.length_le
  apply List.monotone_filter_right
  intro b hb
  simp only [Bool.and_eq_true, decide_eq_true_eq] at hb ⊢
  exact ⟨le_trans hb.1 h, hb.2⟩

theorem revenueWithin_mono (sys : MLSystem) (lat lng : ℚ) {r1 r2 : ℚ} (h : r1 ≤ r2)
    (hrev : ∀ b ∈ sys.reference_data, 0 ≤ b.GTV2024) :
    revenueWithin sys lat lng r1 ≤ revenueWithin sys lat lng r2 := by
  apply List.Sublist.sum_le_sum
  · apply List.Sublist.map
    apply List.monotone_filter_right
    intro b hb
    simp only [decide_eq_true_eq] at hb ⊢
    exact le_trans hb h
  · intro a ha
    rcases List.mem_map.mp ha with ⟨b, hb, rfl⟩
    exact hrev b (List.mem_filter.mp hb).1

/-- C7: in the feature map built by `_calculate_spatial_features`, the
competitor count, the same-category count and the summed competitor revenue
are monotonically non-decreasing in the radius (0.5 km ≤ 1.0 km ≤ 2.0 km),
the revenue under the domain assumption that every reference branch's
`GTV2024` is nonnegative. -/
theorem competitor_features_monotone (sys : MLSystem) (lat lng : ℚ) (category : String)
    (hrev : ∀ b ∈ sys.reference_data, 0 ≤ b.GTV2024) :
    let f := calculateSpatialFeatures sys lat lng category
    (featGet f "competitors_0.5km" 0 ≤ featGet f "competitors_1.0km" 0
      ∧ featGet f "competitors_1.0km" 0 ≤ featGet f "competitors_2.0km" 0)
  ∧ (featGet f "same_category_competitors_0.5km" 0
        ≤ featGet f "same_category_competitors_1.0km" 0
      ∧ featGet f "same_category_competitors_1.0km" 0
        ≤ featGet f "same_category_competitors_2.0km" 0)
  ∧ (featGet f "competitor_revenue_0.5km" 0 ≤ featGet f "competitor_revenue_1.0km" 0
      ∧ featGet f "competitor_revenue_1.0km" 0 ≤ featGet f "competitor_revenue_2.0km" 0) := by
  intro f
  have ec05 : featGet f "competitors_0.5km" 0
      = (competitorsWithin sys lat lng (1/2) : ℚ) := rfl
  have ec10 : featGet f "competitors_1.0km" 0
      = (competitorsWithin sys lat lng 1 : ℚ) := rfl
  have ec20 : featGet f "competitors_2.0km" 0
      = (competitorsWithin sys lat lng 2 : ℚ) := rfl
  have es05 : featGet f "same_category_competitors_0.5km" 0
      = (sameCategoryWithin sys lat lng category (1/2) : ℚ) := rfl
  have es10 : featGet f "same_category_competitors_1.0km" 0
      = (sameCategoryWithin sys lat lng category 1 : ℚ) := rfl
  have es20 : featGet f "same_category_competitors_2.0km" 0
      = (sameCategoryWithin sys lat lng category 2 : ℚ) := rfl
  have er05 : featGet f "competitor_revenue_0.5km" 0
      = revenueWithin sys lat lng (1/2) := rfl
  have er10 : featGet f "competitor_revenue_1.0km" 0
      = revenueWithin sys lat lng 1 := rfl
  have er20 : featGet f "competitor_revenue_2.0km" 0
      = revenueWithin sys lat lng 2 := rfl
  rw [ec05, ec10, ec20, es05, es10, es20, er05, er10, er20]
  refine ⟨⟨?_, ?_⟩, ⟨?_, ?_⟩, ?_, ?_⟩
  · exact_mod_cast competitorsWithin_mono sys lat lng (by norm_num)
  · exact_mod_cast competitorsWithin_mono sys lat lng (by norm_num)
  · exact_mod_cast sameCategoryWithin_mono sys lat lng category (by norm_num)
  · exact_mod_cast sameCategoryWithin_mono sys lat lng category (by norm_num)
  · exact revenueWithin_mono sys lat lng (by norm_num) hrev
  · exact revenueWithin_mono sys lat lng (by norm_num) hrev

/-- Instantiation of `competitor_features_monotone` on `testSys` (whose two
branches have nonnegative revenue). -/
theorem competitor_features_monotone_witness :
    (featGet (calculateSpatialFeatures testSys 0 0 "Fresh Juices") "competitors_0.5km" 0
        ≤ featGet (calculateSpatialFeatures testSys 0 0 "Fresh Juices") "competitors_1.0km" 0
      ∧ featGet (calculateSpatialFeatures testSys 0 0 "Fresh Juices") "competitors_1.0km" 0
        ≤ featGet (calculateSpatialFeatures testSys 0 0 "Fresh Juices") "competitors_2.0km" 0)
  ∧ (featGet (calculateSpatialFeatures testSys 0 0 "Fresh Juices")
        "same_category_competitors_0.5km" 0
        ≤ featGet (calculateSpatialFeatures testSys 0 0 "Fresh Juices")
            "same_category_competitors_1.0km" 0
      ∧ featGet (calculateSpatialFeatures testSys 0 0 "Fresh Juices")
            "same_category_competitors_1.0km" 0
        ≤ featGet (calculateSpatialFeatures testSys 0 0 "Fresh Juices")
            "same_category_competitors_2.0km" 0)
  ∧ (featGet (calculateSpatialFeatures testSys 0 0 "Fresh Juices") "competitor_revenue_0.5km" 0
        ≤ featGet (calculateSpatialFeatures testSys 0 0 "Fresh Juices") "competitor_revenue_1.0km" 0
      ∧ featGet (calculateSpatialFeatures testSys 0 0 "Fresh Juices") "competitor_revenue_1.0km" 0
        ≤ featGet (calculateSpatialFeatures testSys 0 0 "Fresh Juices") "competitor_revenue_2.0km" 0) :=
  competitor_features_monotone testSys 0 0 "Fresh Juices" (by decide)

/-! ### C1 — portfolio status bucketing -/

/-- C1 (amended): every portfolio row receives exactly one status label,
with right-closed `pd.cut` bins: gap ≤ -0.1 ↦ 'Underperforming',
-0.1 < gap ≤ 0.1 ↦ 'As Expected', gap > 0.1 ↦ 'Overperforming'.  (The
boundary gap = -0.1 is labelled 'Underperforming', not 'As Expected'.) -/
theorem portfolio_status_partition (sys : MLSystem) (row : PortfolioRow)
    (hrow : row ∈ (analyzePortfolio sys).rows) :
    (row.performance_gap ≤ -(1/10) ∧ row.status = "Underperforming"
      ∧ row.status ≠ "As Expected" ∧ row.status ≠ "Overperforming")
  ∨ (-(1/10) < row.performance_gap ∧ row.performance_gap ≤ 1/10
      ∧ row.status = "As Expected"
      ∧ row.status ≠ "Underperforming" ∧ row.status ≠ "Overperforming")
  ∨ (1/10 < row.performance_gap ∧ row.status = "Overperforming"
      ∧ row.status ≠ "Underperforming" ∧ row.status ≠ "As Expected") := by
  have hrows : (analyzePortfolio sys).rows = portfolioRows sys := rfl
  rw [hrows, portfolioRows] at hrow
  rcases List.mem_map.mp hrow with ⟨b, hb, hbrow⟩
  have hst : row.status = gapStatus row.performance_gap := by
    rw [← hbrow]
  by_cases h1 : row.performance_gap ≤ -(1/10)
  · have hval : gapStatus row.performance_gap = "Underperforming" := by
      unfold gapStatus
      rw [if_pos h1]
    exact Or.inl ⟨h1, hst.trans hval, by rw [hst, hval]; decide, by rw [hst, hval]; decide⟩
  · by_cases h2 : row.performance_gap ≤ 1/10
    · have hval : gapStatus row.performance_gap = "As Expected" := by
        unfold gapStatus
        rw [if_neg h1, if_pos h2]
      exact Or.inr (Or.inl ⟨not_le.mp h1, h2, hst.trans hval,
        by rw [hst, hval]; decide, by rw [hst, hval]; decide⟩)
    · have hval : gapStatus row.performance_gap = "Overperforming" := by
        unfold gapStatus
        rw [if_neg h1, if_neg h2]
      exact Or.inr (Or.inr ⟨not_le.mp h2, hst.trans hval,
        by rw [hst, hval]; decide, by rw [hst, hval]; decide⟩)

/-- Instantiation of `portfolio_status_partition`: the first `testSys`
branch has gap 0 and falls in the 'As Expected' bucket. -/
theorem portfolio_status_partition_witness :
    portfolioTestRow ∈ (analyzePortfolio testSys).rows
  ∧ ((portfolioTestRow.performance_gap ≤ -(1/10)
        ∧ portfolioTestRow.status = "Underperforming"
        ∧ portfolioTestRow.status ≠ "As Expected"
        ∧ portfolioTestRow.status ≠ "Overperforming")
    ∨ (-(1/10) < portfolioTestRow.performance_gap
        ∧ portfolioTestRow.performance_gap ≤ 1/10
        ∧ portfolioTestRow.status = "As Expected"
        ∧ portfolioTestRow.status ≠ "Underperforming"
        ∧ portfolioTestRow.status ≠ "Overperforming")
    ∨ (1/10 < portfolioTestRow.performance_gap
        ∧ portfolioTestRow.status = "Overperforming"
        ∧ portfolioTestRow.status ≠ "Underperforming"
        ∧ portfolioTestRow.status ≠ "As Expected")) := by
  have hmem : portfolioTestRow ∈ (analyzePortfolio testSys).rows := by
    show portfolioTestRow ∈ portfolioRows testSys
    rw [portfolioRows]
    refine List.mem_map.mpr
      ⟨{ branch_id := 1, branchName := "Branch A", districtName := "Setia Budi",
         Category := "Fresh Juices", latitude := 0, longitude := 0,
         GTV2024 := 100, performance_score := 1/2 }, ?_, ?_⟩
    · simp [testSys]
    · norm_num [testSys, portfolioTestRow, gapStatus]
  exact ⟨hmem, portfolio_status_partition testSys portfolioTestRow hmem⟩

/-- C1 counterexample: in `boundarySys` the only branch's gap is exactly
-0.1, and `analyze_portfolio` labels it 'Underperforming' — not
'As Expected' as the claim states — because the `pd.cut` bins are
right-closed. -/
theorem portfolio_status_boundary_counterexample :
    ((analyzePortfolio boundarySys).rows.map
      (fun r => (r.performance_gap, r.status)))
      = [(-(1/10), "Underperforming")]
  ∧ ("Underperforming" : String) ≠ "As Expected" := by
  constructor
  · show ((portfolioRows boundarySys).map (fun r => (r.performance_gap, r.status))) = _
    rw [portfolioRows]
    norm_num [boundarySys, gapStatus]
  · decide

/-! ### Reduction lemmas for `generate_expansion_report` -/

/-- The `try` body fails exactly as `sample_locations` does: with an empty
focus list the category-cycling modulo raises. -/
theorem generateExpansionReportBody_error (sys : MLSystem) (target_branches : Nat)
    (focus_categories : List String) (h : focus_categories.length = 0) :
    generateExpansionReportBody sys target_branches focus_categories
      = Except.error "integer division or modulo by zero" := by
  unfold generateExpansionReportBody
  rw [sampleLocations, if_pos h]

/-- Explicit form of the success path of the `try` body (nonempty focus
list). -/
theorem generateExpansionReportBody_ok (sys : MLSystem) (target_branches : Nat)
    (focus_categories : List String) (h : ¬ focus_categories.length = 0) :
    generateExpansionReportBody sys target_branches focus_categories = Except.ok
      { error := none
        executive_summary :=
          { target_new_branches := target_branches
            focus_categories := some focus_categories
            recommended_districts := some ["Setia Budi", "Kebayoran Baru"]
            total_investment_estimate :=
              some (toString (target_branches * 500) ++ "M - "
                ++ toString (target_branches * 800) ++ "M IDR")
            status := none }
        portfolio_optimization := some
          { current_performance := (analyzePortfolio sys).portfolio_summary
            optimization_candidates := (analyzePortfolio sys).optimization_candidates.length
            best_practice_sources := (analyzePortfolio sys).best_practice_sources.length }
        category_opportunities := some (focus_categories.map (fun category =>
          { category := category
            optimal_districts := findOptimalDistricts sys category 2 }))
        location_recommendations := some (compareLocations sys
          ((expansionCoords.enum.map (fun p =>
            (p.2.1, p.2.2.1, p.2.2.2,
              focus_categories.getD (p.1 % focus_categories.length) ""))).take
            target_branches))
        risk_assessment := some riskAssessment
        next_steps := some nextSteps } := by
  unfold generateExpansionReportBody
  rw [sampleLocations, if_neg h]

/-- A successful `try` body is returned unchanged. -/
theorem generateExpansionReport_of_ok (sys : MLSystem) (target_branches : Nat)
    (focus_categories : Option (List String)) (report : ExpansionReport)
    (h : generateExpansionReportBody sys target_branches
        (focus_categories.getD defaultFocusCategories) = Except.ok report) :
    generateExpansionReport sys target_branches focus_categories = report := by
  unfold generateExpansionReport
  rw [h]

/-- A failing `try` body is converted into the error-shaped report of lines
269-277. -/
theorem generateExpansionReport_of_error (sys : MLSystem) (target_branches : Nat)
    (focus_categories : Option (List String)) (e : String)
    (h : generateExpansionReportBody sys target_branches
        (focus_categories.getD defaultFocusCategories) = Except.error e) :
    generateExpansionReport sys target_branches focus_categories =
      { error := some e
        executive_summary :=
          { target_new_branches := target_branches
            focus_categories := none
            recommended_districts := none
            total_investment_estimate := none
            status := some "Error occurred during report generation" }
        portfolio_optimization := none
        category_opportunities := none
        location_recommendations := none
        risk_assessment := none
        next_steps := none } := by
  unfold generateExpansionReport
  rw [h]

/-! ### C2 — shape of the location recommendations -/

/-- C2 (amended): for a nonempty focus list, `generate_expansion_report`
builds its `location_recommendations` by scoring the three fixed sample
coordinates with categories cycled from the focus list and truncating to
`target_branches`; the resulting list has length `min target_branches 3` —
it is never extended beyond the three configured coordinates — and is a
score-sorted permutation of those scored samples. -/
theorem expansion_report_recommendations (sys : MLSystem) (target_branches : Nat)
    (focus_categories : List String) (hne : focus_categories ≠ []) :
    ∃ recs : List ScoreResult,
      (generateExpansionReport sys target_branches
          (some focus_categories)).location_recommendations = some recs
      ∧ recs.length = min target_branches 3
      ∧ recs.Perm (((expansionCoords.enum.map (fun p =>
            (p.2.1, p.2.2.1, p.2.2.2,
              focus_categories.getD (p.1 % focus_categories.length) ""))).take
            target_branches).map (scoreLocation sys)) := by
  have hlen : ¬ focus_categories.length = 0 := fun h => hne (List.length_eq_zero.mp h)
  have hok := generateExpansionReportBody_ok sys target_branches focus_categories hlen
  have hrep := generateExpansionReport_of_ok sys target_branches (some focus_categories) _ hok
  refine ⟨compareLocations sys ((expansionCoords.enum.map (fun p =>
      (p.2.1, p.2.2.1, p.2.2.2,
        focus_categories.getD (p.1 % focus_categories.length) ""))).take
      target_branches), ?_, ?_, ?_⟩
  · rw [hrep]
  · rw [compareLocations,
      (sortDesc_perm (fun r : ScoreResult => r.spatial_score.score) _).length_eq,
      List.length_map, List.length_take, List.length_map, List.enum_length]
    rfl
  · exact sortDesc_perm _ _

/-- Instantiation of `expansion_report_recommendations` at the spec's
example: `target_branches = 3`, `focus_categories = ['A', 'B']` yields
exactly three recommendations, and the cycled sample categories are
A, B, A. -/
theorem expansion_report_recommendations_witness :
    ((generateExpansionReport testSys 3 (some ["A", "B"])).location_recommendations.map
      (fun l => l.length)) = some 3
  ∧ ((sampleLocations ["A", "B"]).map (fun s => s.map (fun loc => loc.2.2.2)))
      = Except.ok ["A", "B", "A"] := by
  constructor
  · obtain ⟨recs, h1, h2, _⟩ :=
      expansion_report_recommendations testSys 3 ["A", "B"] (by decide)
    rw [h1, Option.map_some', h2]
    rfl
  · rw [sampleLocations, if_neg (by decide)]
    rfl

/-- C2 counterexample: with `target_branches = 5` (more than the three
configured sample coordinates) and focus list `['A']`, the report contains
only 3 location recommendations, not 5 — the list is truncated to the fixed
coordinates, never extended to the requested count. -/
theorem expansion_report_length_counterexample :
    ((generateExpansionReport testSys 5 (some ["A"])).location_recommendations.map
      (fun l => l.length)) = some 3
  ∧ (3 : Nat) ≠ 5 := by
  constructor
  · have hok := generateExpansionReportBody_ok testSys 5 ["A"] (by decide)
    have hrep := generateExpansionReport_of_ok testSys 5 (some ["A"]) _ hok
    rw [hrep, Option.map_some', compareLocations,
      (sortDesc_perm (fun r : ScoreResult => r.spatial_score.score) _).length_eq,
      List.length_map, List.length_take, List.length_map, List.enum_length]
    rfl
  · decide

/-! ### C6 — report assembly never propagates an exception -/

/-- C6: `generate_expansion_report` always hands the caller a dict-shaped
report whose executive summary carries the requested branch count; if the
`try` body fails, the exception is caught and surfaced as an error
description plus an error-status executive summary instead of being
raised. -/
theorem expansion_report_always_dict (sys : MLSystem) (target_branches : Nat)
    (focus_categories : Option (List String)) :
    (generateExpansionReport sys target_branches
        focus_categories).executive_summary.target_new_branches = target_branches
  ∧ (∀ e, generateExpansionReportBody sys target_branches
        (focus_categories.getD defaultFocusCategories) = Except.error e →
      (generateExpansionReport sys target_branches focus_categories).error = some e
      ∧ (generateExpansionReport sys target_branches
          focus_categories).executive_summary.status
        = some "Error occurred during report generation") := by
  by_cases hf : (focus_categories.getD defaultFocusCategories).length = 0
  · have herr := generateExpansionReportBody_error sys target_branches _ hf
    have hrep := generateExpansionReport_of_error sys target_branches focus_categories _ herr
    refine ⟨by rw [hrep], fun e he => ?_⟩
    rw [herr] at he
    injection he with he'
    subst he'
    exact ⟨by rw [hrep], by rw [hrep]⟩
  · have hok := generateExpansionReportBody_ok sys target_branches _ hf
    have hrep := generateExpansionReport_of_ok sys target_branches focus_categories _ hok
    refine ⟨by rw [hrep], fun e he => ?_⟩
    rw [hok] at he
    exact absurd he (by simp)

/-- Instantiation of `expansion_report_always_dict` on the caught failure
path: an empty focus list makes the category-cycling modulo fail, and the
caller still receives a report with the error text and an error-status
executive summary. -/
theorem expansion_report_always_dict_witness :
    (generateExpansionReport testSys 7 (some [])).executive_summary.target_new_branches = 7
  ∧ (generateExpansionReport testSys 7 (some [])).error
      = some "integer division or modulo by zero"
  ∧ (generateExpansionReport testSys 7 (some [])).executive_summary.status
      = some "Error occurred during report generation" :=
  ⟨(expansion_report_always_dict testSys 7 (some [])).1,
   ((expansion_report_always_dict testSys 7 (some [])).2
      "integer division or modulo by zero" (by rfl)).1,
   ((expansion_report_always_dict testSys 7 (some [])).2
      "integer division or modulo by zero" (by rfl)).2⟩

end RestaurantML
